import Mathlib

/-!
# Verification of the Crosspay server SDK (Go) against its specification

Shallow embedding of `src/sdk.go`. Go byte slices and Go strings are both
modelled as `List Nat` (a Go `string` is an immutable byte sequence; the
conversion `[]byte(s)` is the identity on the underlying bytes). Go's
`time.Duration` is a signed 64-bit count of nanoseconds; we model durations
as `Int` together with explicit saturation/wrap-around where the Go code
relies on 64-bit semantics. Calls into the Go standard library
(`time.Parse`, `base64.StdEncoding.DecodeString`, `pem.Decode`,
`x509.ParsePKIXPublicKey`, `sha256.Sum256`, `rsa.VerifyPKCS1v15`,
`json.Unmarshal`) are modelled as oracle parameters bundled in `GoPrims`:
the SDK's own logic — the code under verification — is the pipeline that
sequences them and classifies their failures.
-/

namespace Crosspay

/-- Bytes of a Go `[]byte` or `string` value. -/
abbrev Bytes := List Nat

/-! ## Go 64-bit duration arithmetic (`time` package) -/

/-- Smallest value of Go's `time.Duration` (`int64` nanoseconds). -/
def int64Min : Int := -(2 ^ 63)

/-- Largest value of Go's `time.Duration` (`int64` nanoseconds). -/
def int64Max : Int := 2 ^ 63 - 1

/-- `time.Minute` in nanoseconds. -/
def goMinute : Int := 60 * 1000000000

/-- The `5*time.Minute` window of `sdk.go` line 278. -/
def maxClockSkew : Int := 5 * goMinute

/-- Go `time.Since(t) = time.Now().Sub(t)` for a wall-clock `t`: the
mathematical difference of the two instants in nanoseconds, saturated at
the bounds of `time.Duration` (Go's `Time.Sub` documents that a result
out of range is clamped to the minimum/maximum duration). Instants are
nanoseconds since the Unix epoch, unbounded (Go's `Time` stores 64-bit
seconds plus nanoseconds, far wider than `Duration`). -/
def timeSince (now timestampDate : Int) : Int :=
  let d := now - timestampDate
  if d < int64Min then int64Min
  else if d > int64Max then int64Max
  else d

/-- Go negation of an `int64`: two's-complement wrap-around, so the
negation of the minimum value is itself. -/
def negInt64 (x : Int) : Int :=
  if x = int64Min then int64Min else -x

/-- Lines 273–280 of `sdk.go`:

```go
timeDiff := time.Since(timestampDate)
if timeDiff < 0 {
    timeDiff = -timeDiff
}
if timeDiff > 5*time.Minute {
    return nil, errors.New("timestamp is outside the 5-minute window")
}
```

`true` means the request is rejected with the timestamp-expired error. -/
def timestampExpired (now timestampDate : Int) : Bool :=
  let timeDiff := timeSince now timestampDate
  let timeDiff := if timeDiff < 0 then negInt64 timeDiff else timeDiff
  decide (timeDiff > maxClockSkew)

/-! ## Error taxonomy (spec §7) -/

/-- The error kinds of the webhook pipeline, one per distinct `return`
of `ConstructWebhookEvent` (spec §7 taxonomy; both the nil-PEM-block and
the PKIX-parse failures carry the kind `publicKeyParseError`). -/
inductive WebhookErr where
  | timestampParseError
  | timestampExpiredError
  | signatureDecodeError
  | publicKeyParseError
  | unsupportedKeyTypeError
  | signatureVerificationError
  | payloadDecodeError
deriving DecidableEq, Repr

/-- Result of `x509.ParsePKIXPublicKey` followed by the type switch of
line 304: either an RSA public key (of abstract type `K`) or a key of
some other algorithm (elliptic curve, Ed25519, …). -/
inductive ParsedPublicKey (K : Type) where
  | rsa (pub : K)
  | nonRSA
deriving DecidableEq, Repr

/-- The Go standard-library primitives `ConstructWebhookEvent` calls,
as oracles. `K` is the type of RSA public keys, `E` the typed event
(`GetCustomerExtendedInfoByEmailRow`). -/
structure GoPrims (K E : Type) where
  /-- `time.Parse(time.RFC3339, timestampHeader)`: `none` on parse error,
  otherwise the parsed instant in nanoseconds since the epoch. -/
  parseRFC3339 : Bytes → Option Int
  /-- The wall-clock instant at which `time.Since` is evaluated. -/
  now : Int
  /-- `base64.StdEncoding.DecodeString`: `none` on decode error. -/
  base64Decode : Bytes → Option Bytes
  /-- `pem.Decode` restricted to the block bytes: `none` when the
  returned block is `nil`. -/
  pemDecode : Bytes → Option Bytes
  /-- `x509.ParsePKIXPublicKey` (on the PEM block bytes) combined with
  the `pub.(*rsa.PublicKey)` type assertion: `none` on parse error. -/
  parsePKIX : Bytes → Option (ParsedPublicKey K)
  /-- `sha256.Sum256`. -/
  sha256 : Bytes → Bytes
  /-- `rsa.VerifyPKCS1v15(rsaPub, crypto.SHA256, hash, signature) == nil`. -/
  verifyPKCS1v15 : K → Bytes → Bytes → Bool
  /-- `json.Unmarshal(rawPayload, &event)` into the typed event:
  `none` on unmarshal error. -/
  jsonUnmarshalEvent : Bytes → Option E

/-! ## Canonical message and the webhook pipeline -/

/-- Lines 282–284 of `sdk.go`:

```go
data := append([]byte(timestampHeader), '.')
data = append(data, rawPayload...)
```

`46` is the byte of `'.'`. -/
def canonicalMessage (timestampHeader rawPayload : Bytes) : Bytes :=
  let data := timestampHeader.concat 46
  data ++ rawPayload

/-- Lines 261–325 of `sdk.go`, `ConstructWebhookEvent`, stage for stage
in source order: parse the timestamp, check the 5-minute window, build
the data to verify, base64-decode the signature, decode the PEM block,
parse the PKIX key, assert it is RSA, SHA-256 the data, verify the
RSASSA-PKCS1-v1.5 signature, and only then unmarshal the payload. -/
def constructWebhookEvent {K E : Type} (g : GoPrims K E)
    (webhookPublicKey rawPayload signatureHeader timestampHeader : Bytes) :
    Except WebhookErr E :=
  match g.parseRFC3339 timestampHeader with
  | none => .error .timestampParseError
  | some timestampDate =>
    if timestampExpired g.now timestampDate then
      .error .timestampExpiredError
    else
      let data := canonicalMessage timestampHeader rawPayload
      match g.base64Decode signatureHeader with
      | none => .error .signatureDecodeError
      | some signature =>
        match g.pemDecode webhookPublicKey with
        | none => .error .publicKeyParseError
        | some blockBytes =>
          match g.parsePKIX blockBytes with
          | none => .error .publicKeyParseError
          | some .nonRSA => .error .unsupportedKeyTypeError
          | some (.rsa rsaPub) =>
            let hash := g.sha256 data
            if g.verifyPKCS1v15 rsaPub hash signature then
              match g.jsonUnmarshalEvent rawPayload with
              | none => .error .payloadDecodeError
              | some event => .ok event
            else
              .error .signatureVerificationError

/-! ## Collaborator layer: list endpoints and the active-* joins

The data types below come from the generated HTTP client (not under
`src/`); we model exactly the fields `sdk.go` reads. Identifiers are Go
strings, compared with `==` in the loops of lines 160–164 and 184–188. -/

/-- A tenant product; `sdk.go` reads `ProductId` (line 161) and
`EntitlementId` (line 185). -/
structure TenantProduct where
  productId : String
  entitlementId : String
deriving DecidableEq, Repr

/-- A tenant entitlement; `sdk.go` reads `Id` (line 185). -/
structure TenantEntitlement where
  id : String
deriving DecidableEq, Repr

/-- An active subscription; `sdk.go` reads `ProductId` (line 161). -/
structure StorableSubscription where
  productId : String
deriving DecidableEq, Repr

/-- A Go slice of `α`: `none` is the nil slice, `some l` a non-nil
slice with elements `l`. The distinction matters for the claim that the
list endpoints never return a null collection. -/
abbrev GoSlice (α : Type) := Option (List α)

/-- The uniform `{ data, error }` response envelope of the collaborator
endpoints, after `json.Unmarshal`: both fields are pointers, `none`
modelling `nil`. -/
structure ListEnvelope (α : Type) where
  data : Option (List α)
  error : Option String
deriving Repr

/-- The guard `result.Error != nil && *result.Error != ""` shared by all
envelope handlers in `sdk.go`. -/
def hasEnvelopeError : Option String → Bool
  | some e => decide (e ≠ "")
  | none => false

/-- Lines 63–77 of `sdk.go` (`ListProducts`), from the decoded envelope on:

```go
if result.Error != nil && *result.Error != "" {
    return nil, errors.New(*result.Error)
}
if result.Data == nil {
    return []TenantProduct{}, nil
}
return *result.Data, nil
```

The success value is a `GoSlice`: the `Data == nil` branch returns the
non-nil empty slice literal. -/
def listProductsFromEnvelope (result : ListEnvelope TenantProduct) :
    Except String (GoSlice TenantProduct) :=
  if hasEnvelopeError result.error then
    .error (result.error.getD "")
  else
    match result.data with
    | none => .ok (some [])
    | some d => .ok (some d)

/-- Lines 96–110 of `sdk.go` (`ListEntitlements`), from the decoded
envelope on; identical shape to `listProductsFromEnvelope`. -/
def listEntitlementsFromEnvelope (result : ListEnvelope TenantEntitlement) :
    Except String (GoSlice TenantEntitlement) :=
  if hasEnvelopeError result.error then
    .error (result.error.getD "")
  else
    match result.data with
    | none => .ok (some [])
    | some d => .ok (some d)

/-- The `{ data, error }` envelope of the active-subscription endpoint:
`data` is a pointer to a single value (`*StorableSubscription`). -/
structure SubscriptionEnvelope where
  data : Option StorableSubscription
  error : Option String
deriving Repr

/-- Lines 113–143 of `sdk.go` (`GetActiveSubscription`), from the decoded
envelope on:

```go
if result.Error != nil && *result.Error != "" {
    return nil, errors.New(*result.Error)
}
return result.Data, nil
```

`result.Data` may be `nil`, in which case the call succeeds with `none`. -/
def getActiveSubscription (result : SubscriptionEnvelope) :
    Except String (Option StorableSubscription) :=
  if hasEnvelopeError result.error then
    .error (result.error.getD "")
  else
    .ok result.data

/-- The loop of lines 160–164 of `sdk.go`: linear scan returning the
first product whose `ProductId` equals the subscription's. -/
def findProduct (productId : String) : List TenantProduct → Option TenantProduct
  | [] => none
  | p :: ps => if p.productId = productId then some p else findProduct productId ps

/-- The loop of lines 184–188 of `sdk.go`: linear scan returning the
first entitlement whose `Id` equals the product's `EntitlementId`. -/
def findEntitlement (entitlementId : String) :
    List TenantEntitlement → Option TenantEntitlement
  | [] => none
  | e :: es => if e.id = entitlementId then some e else findEntitlement entitlementId es

/-- Lines 146–167 of `sdk.go` (`GetActiveProduct`): fetch the active
subscription; a failure propagates, an absent subscription yields
`none` without error; otherwise list the products and scan for the
first match, absent match again yielding `none` without error. The two
remote calls are passed as their outcomes. -/
def getActiveProduct (subResult : Except String (Option StorableSubscription))
    (productsResult : Except String (List TenantProduct)) :
    Except String (Option TenantProduct) :=
  match subResult with
  | .error e => .error e
  | .ok none => .ok none
  | .ok (some activeSubscription) =>
    match productsResult with
    | .error e => .error e
    | .ok products => .ok (findProduct activeSubscription.productId products)

/-- Lines 170–191 of `sdk.go` (`GetActiveEntitlement`): fetch the active
product (which itself fetched the active subscription); a failure
propagates, an absent product yields `none` without error; otherwise
list the entitlements for the environment and scan for the first match. -/
def getActiveEntitlement (subResult : Except String (Option StorableSubscription))
    (productsResult : Except String (List TenantProduct))
    (entitlementsResult : Except String (List TenantEntitlement)) :
    Except String (Option TenantEntitlement) :=
  match getActiveProduct subResult productsResult with
  | .error e => .error e
  | .ok none => .ok none
  | .ok (some activeProduct) =>
    match entitlementsResult with
    | .error e => .error e
    | .ok entitlements => .ok (findEntitlement activeProduct.entitlementId entitlements)

/-! ## Concrete oracle instantiations used by the witnesses -/

/-- Oracles for which every stage succeeds: the timestamp parses to the
current instant, the PEM/PKIX stages yield an RSA key, the verifier
accepts, and the payload unmarshals. -/
def trivPrims : GoPrims Unit Unit where
  parseRFC3339 _ := some 0
  now := 0
  base64Decode s := some s
  pemDecode s := some s
  parsePKIX _ := some (.rsa ())
  sha256 m := m
  verifyPKCS1v15 _ _ _ := true
  jsonUnmarshalEvent _ := some ()

/-- `trivPrims` with a verifier that rejects every signature. -/
def rejectPrims : GoPrims Unit Unit :=
  { trivPrims with verifyPKCS1v15 := fun _ _ _ => false }

/-- `trivPrims` with PKIX parsing that yields a non-RSA key. -/
def nonRSAPrims : GoPrims Unit Unit :=
  { trivPrims with parsePKIX := fun _ => some .nonRSA }

/-- `trivPrims` with PEM decoding that finds no PEM block. -/
def noPemPrims : GoPrims Unit Unit :=
  { trivPrims with pemDecode := fun _ => none }

/-- `trivPrims` with a payload unmarshaller on which the tested payload
fails to decode — as `json.Unmarshal` does on the byte `[120]` (the
non-JSON text `x`). -/
def nonJSONPrims : GoPrims Unit Unit :=
  { trivPrims with jsonUnmarshalEvent := fun _ => none }

/-- The signing oracle of the round-trip scenario: its signatures are
exactly what `trivPrims.verifyPKCS1v15` (and `nonJSONPrims`) accept. -/
def cexSign : Bytes → Bytes := fun _ => []

/-! ## Theorems -/

/-- C1: `ConstructWebhookEvent` returns a non-error event only if the
timestamp check and the signature check both succeeded on that input,
and the returned event is the decoding of the raw payload performed
after verification: success implies the timestamp parsed and was inside
the skew window, the signature base64-decoded, the key loaded as RSA,
the RSASSA-PKCS1-v1.5 check accepted the SHA-256 of the canonical
message, and the event is the unmarshalling of the raw payload. No code
path produces a returned event from unverified bytes. -/
theorem constructWebhookEvent_ok_only_if_verified {K E : Type} (g : GoPrims K E)
    (key payload sig ts : Bytes) (ev : E)
    (h : constructWebhookEvent g key payload sig ts = .ok ev) :
    (∃ t, g.parseRFC3339 ts = some t ∧ timestampExpired g.now t = false) ∧
    (∃ s bb pub, g.base64Decode sig = some s ∧ g.pemDecode key = some bb ∧
      g.parsePKIX bb = some (.rsa pub) ∧
      g.verifyPKCS1v15 pub (g.sha256 (canonicalMessage ts payload)) s = true) ∧
    g.jsonUnmarshalEvent payload = some ev := by
  unfold constructWebhookEvent at h
  split at h
  · exact absurd h (by simp)
  · rename_i timestampDate hparse
    split at h
    · exact absurd h (by simp)
    · rename_i hfresh
      split at h
      · exact absurd h (by simp)
      · rename_i signature hsig
        split at h
        · exact absurd h (by simp)
        · rename_i blockBytes hpem
          split at h
          · exact absurd h (by simp)
          · exact absurd h (by simp)
          · rename_i rsaPub hkey
            dsimp only at h
            split at h
            · rename_i hverify
              split at h
              · exact absurd h (by simp)
              · rename_i event hjson
                cases h
                exact ⟨⟨timestampDate, hparse, by simpa using hfresh⟩,
                  ⟨signature, blockBytes, rsaPub, hsig, hpem, hkey, hverify⟩, hjson⟩
            · exact absurd h (by simp)

/-- Witness for C1 at concrete oracles where the pipeline succeeds. -/
theorem constructWebhookEvent_ok_only_if_verified_witness :
    (∃ t, trivPrims.parseRFC3339 [49] = some t ∧
      timestampExpired trivPrims.now t = false) ∧
    (∃ s bb pub, trivPrims.base64Decode [1] = some s ∧
      trivPrims.pemDecode [2] = some bb ∧
      trivPrims.parsePKIX bb = some (.rsa pub) ∧
      trivPrims.verifyPKCS1v15 pub
        (trivPrims.sha256 (canonicalMessage [49] [120])) s = true) ∧
    trivPrims.jsonUnmarshalEvent [120] = some () :=
  constructWebhookEvent_ok_only_if_verified trivPrims [2] [120] [1] [49] () rfl

/-- C4: the canonical message `ConstructWebhookEvent` verifies the
signature against is the byte concatenation of the timestamp header
bytes, the single byte of the separator character, and the raw payload
bytes, with no transformation, re-encoding, or re-serialization of
either input. -/
theorem canonicalMessage_is_raw_concat (timestampHeader rawPayload : Bytes) :
    canonicalMessage timestampHeader rawPayload =
      timestampHeader ++ 46 :: rawPayload := by
  simp [canonicalMessage]

/-- C5: once an input reaches the signature-verification stage (fresh
parseable timestamp, base64-decodable signature, PEM- and PKIX-parseable
RSA key), any failure of the cryptographic check — whatever combination
of key, payload, timestamp and signature bytes made the verifier
reject — yields the single undifferentiated signature-verification
error. -/
theorem verificationFailure_single_error {K E : Type} (g : GoPrims K E)
    (key payload sig ts : Bytes) (t : Int) (s bb : Bytes) (pub : K)
    (hparse : g.parseRFC3339 ts = some t)
    (hfresh : timestampExpired g.now t = false)
    (hsig : g.base64Decode sig = some s)
    (hpem : g.pemDecode key = some bb)
    (hkey : g.parsePKIX bb = some (.rsa pub))
    (hverify : g.verifyPKCS1v15 pub (g.sha256 (canonicalMessage ts payload)) s = false) :
    constructWebhookEvent g key payload sig ts =
      .error .signatureVerificationError := by
  simp [constructWebhookEvent, hparse, hfresh, hsig, hpem, hkey, hverify]

/-- Witness for C5 at concrete oracles whose verifier rejects. -/
theorem verificationFailure_single_error_witness :
    constructWebhookEvent rejectPrims [2] [120] [1] [49] =
      .error .signatureVerificationError :=
  verificationFailure_single_error rejectPrims [2] [120] [1] [49] 0 [1] [2] ()
    rfl rfl rfl rfl rfl rfl

/-- C6: a PEM-decodable, PKIX-parseable public key whose algorithm is
not RSA makes `ConstructWebhookEvent` fail with the distinct
unsupported-key-type error — not the key-parse error — and RSA
verification is never attempted on it: the outcome is the same for
every possible verifier, whatever the signature and payload bytes. -/
theorem nonRSAKey_unsupported {K E : Type} (g : GoPrims K E)
    (key payload sig ts : Bytes) (t : Int) (s bb : Bytes)
    (hparse : g.parseRFC3339 ts = some t)
    (hfresh : timestampExpired g.now t = false)
    (hsig : g.base64Decode sig = some s)
    (hpem : g.pemDecode key = some bb)
    (hkey : g.parsePKIX bb = some .nonRSA) :
    ∀ v : K → Bytes → Bytes → Bool,
      constructWebhookEvent { g with verifyPKCS1v15 := v } key payload sig ts =
        .error .unsupportedKeyTypeError ∧
      (Except.error .unsupportedKeyTypeError : Except WebhookErr E) ≠
        Except.error .publicKeyParseError := by
  intro v
  constructor
  · simp [constructWebhookEvent, hparse, hfresh, hsig, hpem, hkey]
  · simp

/-- Witness for C6 at concrete oracles whose key parses as non-RSA. -/
theorem nonRSAKey_unsupported_witness :
    constructWebhookEvent { nonRSAPrims with verifyPKCS1v15 := fun _ _ _ => true }
      [2] [120] [1] [49] = .error .unsupportedKeyTypeError ∧
    (Except.error .unsupportedKeyTypeError : Except WebhookErr Unit) ≠
      Except.error .publicKeyParseError :=
  nonRSAKey_unsupported nonRSAPrims [2] [120] [1] [49] 0 [1] [2]
    rfl rfl rfl rfl rfl (fun _ _ _ => true)

/-- C7: a key string in which no PEM block is found, or whose PEM block
fails PKIX parsing, makes `ConstructWebhookEvent` fail with the
key-parse error before any cryptographic comparison: given a fresh
timestamp and a base64-decodable signature, the outcome is the key-parse
error for all payloads and signatures and for every possible verifier. -/
theorem badKey_publicKeyParseError {K E : Type} (g : GoPrims K E)
    (key payload sig ts : Bytes) (t : Int) (s : Bytes)
    (hparse : g.parseRFC3339 ts = some t)
    (hfresh : timestampExpired g.now t = false)
    (hsig : g.base64Decode sig = some s)
    (hbad : g.pemDecode key = none ∨
      ∃ bb, g.pemDecode key = some bb ∧ g.parsePKIX bb = none) :
    ∀ v : K → Bytes → Bytes → Bool,
      constructWebhookEvent { g with verifyPKCS1v15 := v } key payload sig ts =
        .error .publicKeyParseError := by
  intro v
  rcases hbad with hpem | ⟨bb, hpem, hkey⟩
  · simp [constructWebhookEvent, hparse, hfresh, hsig, hpem]
  · simp [constructWebhookEvent, hparse, hfresh, hsig, hpem, hkey]

/-- Witness for C7 at concrete oracles with no PEM block. -/
theorem badKey_publicKeyParseError_witness :
    constructWebhookEvent { noPemPrims with verifyPKCS1v15 := fun _ _ _ => true }
      [2] [120] [1] [49] = .error .publicKeyParseError :=
  badKey_publicKeyParseError noPemPrims [2] [120] [1] [49] 0 [1]
    rfl rfl rfl (Or.inl rfl) (fun _ _ _ => true)

/-- C2 (counterexample): the round-trip claim as stated — for ANY
payload, success with the original payload — fails on the code. At the
concrete oracles `nonJSONPrims` (a valid key pair: the verifier accepts
every signature `cexSign` produces; the payload `[120]`, the non-JSON
text `x`, does not unmarshal into the event type, exactly as
`json.Unmarshal` behaves on it), with a fresh timestamp and the
signature of the canonical message, `ConstructWebhookEvent` does not
succeed: it fails with the payload-decode error. -/
theorem roundtrip_counterexample :
    (∀ m : Bytes, nonJSONPrims.verifyPKCS1v15 ()
      (nonJSONPrims.sha256 m) (cexSign m) = true) ∧
    nonJSONPrims.parseRFC3339 [49] = some 0 ∧
    timestampExpired nonJSONPrims.now 0 = false ∧
    nonJSONPrims.base64Decode [] = some (cexSign (canonicalMessage [49] [120])) ∧
    constructWebhookEvent nonJSONPrims [2] [120] [] [49] =
      .error .payloadDecodeError :=
  ⟨fun _ => rfl, rfl, rfl, rfl, rfl⟩

/-- C2 (amended): for any RSA key pair, any payload THAT UNMARSHALS INTO
THE EVENT TYPE, and any timestamp within the skew window: signing the
canonical message `timestamp ++ SEPARATOR ++ payload` with the private key
(modelled as a signing oracle the key pair's verifier accepts on every
message) and calling `ConstructWebhookEvent` with the corresponding
public key succeeds, and the returned event is exactly the decoding of
the original payload bytes. -/
theorem constructWebhookEvent_roundtrip {K E : Type} (g : GoPrims K E)
    (sign : Bytes → Bytes) (pub : K)
    (key payload sigHeader ts bb : Bytes) (t : Int) (ev : E)
    (hparse : g.parseRFC3339 ts = some t)
    (hfresh : timestampExpired g.now t = false)
    (hsig : g.base64Decode sigHeader = some (sign (canonicalMessage ts payload)))
    (hpem : g.pemDecode key = some bb)
    (hkey : g.parsePKIX bb = some (.rsa pub))
    (hcorrect : ∀ m, g.verifyPKCS1v15 pub (g.sha256 m) (sign m) = true)
    (hdecode : g.jsonUnmarshalEvent payload = some ev) :
    constructWebhookEvent g key payload sigHeader ts = .ok ev := by
  simp [constructWebhookEvent, hparse, hfresh, hsig, hpem, hkey, hcorrect, hdecode]

/-- Witness for the amended C2 at concrete oracles. -/
theorem constructWebhookEvent_roundtrip_witness :
    constructWebhookEvent trivPrims [2] [120] [] [49] = .ok () :=
  constructWebhookEvent_roundtrip trivPrims cexSign () [2] [120] [] [49] [2] 0 ()
    rfl rfl rfl rfl rfl (fun _ => rfl) rfl

/-- C3 (code bug): the timestamp check is NOT the pure 5-minute-window
predicate the spec describes. `time.Since` clamps an out-of-range
difference to the minimum 64-bit duration, and Go's `int64` negation of
that minimum wraps around to itself, so a timestamp further than
`2^63` nanoseconds (about 292 years) in the FUTURE passes the check,
while the same distance in the past is rejected. Concretely, with the
clock at 2026-01-06T10:00:00Z (nanosecond instant 1767693600e9) a
timestamp of 9999-01-01T00:00:00Z (instant 253370764800e9) is accepted
although its distance from now vastly exceeds the window, and the
mirror-image stale timestamp at the same distance is rejected. -/
theorem timestampCheck_overflow_bug :
    timestampExpired 1767693600000000000 253370764800000000000 = false ∧
    timestampExpired 253370764800000000000 1767693600000000000 = true ∧
    253370764800000000000 - (1767693600000000000 : Int) > maxClockSkew := by
  refine ⟨by decide, by decide, by decide⟩

/-- C8: for every decoded envelope of the two list endpoints, a
non-empty error string makes the call fail with exactly that error; no
error together with absent data yields the empty non-nil collection
without error; and neither endpoint ever succeeds with a nil (null)
collection. -/
theorem listEndpoints_envelope_contract
    (rp : ListEnvelope TenantProduct) (re : ListEnvelope TenantEntitlement) :
    (∀ e, rp.error = some e → e ≠ "" → listProductsFromEnvelope rp = .error e) ∧
    (hasEnvelopeError rp.error = false → rp.data = none →
      listProductsFromEnvelope rp = .ok (some [])) ∧
    listProductsFromEnvelope rp ≠ .ok none ∧
    (∀ e, re.error = some e → e ≠ "" → listEntitlementsFromEnvelope re = .error e) ∧
    (hasEnvelopeError re.error = false → re.data = none →
      listEntitlementsFromEnvelope re = .ok (some [])) ∧
    listEntitlementsFromEnvelope re ≠ .ok none := by
  refine ⟨?_, ?_, ?_, ?_, ?_, ?_⟩
  · intro e he hne
    simp [listProductsFromEnvelope, hasEnvelopeError, he, hne]
  · intro h1 h2
    simp [listProductsFromEnvelope, h1, h2]
  · unfold listProductsFromEnvelope
    split
    · simp
    · cases rp.data <;> simp
  · intro e he hne
    simp [listEntitlementsFromEnvelope, hasEnvelopeError, he, hne]
  · intro h1 h2
    simp [listEntitlementsFromEnvelope, h1, h2]
  · unfold listEntitlementsFromEnvelope
    split
    · simp
    · cases re.data <;> simp

/-- Witness for C8: a non-empty error envelope fails with that error;
a no-error, no-data envelope yields the empty non-nil slice. -/
theorem listEndpoints_envelope_contract_witness :
    listProductsFromEnvelope ⟨none, some "boom"⟩ = .error "boom" ∧
    listEntitlementsFromEnvelope ⟨none, none⟩ = .ok (some []) :=
  ⟨(listEndpoints_envelope_contract ⟨none, some "boom"⟩ ⟨none, none⟩).1
      "boom" rfl (by decide),
   (listEndpoints_envelope_contract ⟨none, some "boom"⟩ ⟨none, none⟩).2.2.2.2.1
      rfl rfl⟩

/-- The scan of `GetActiveProduct` is the first-match linear search. -/
theorem findProduct_eq_find (pid : String) (l : List TenantProduct) :
    findProduct pid l = l.find? fun p => p.productId == pid := by
  induction l with
  | nil => rfl
  | cons p ps ih =>
    by_cases h : p.productId = pid
    · rw [findProduct, if_pos h, List.find?_cons_of_pos _ (by simp [h])]
    · rw [findProduct, if_neg h, List.find?_cons_of_neg _ (by simp [h]), ih]

/-- The scan of `GetActiveEntitlement` is the first-match linear search. -/
theorem findEntitlement_eq_find (eid : String) (l : List TenantEntitlement) :
    findEntitlement eid l = l.find? fun e => e.id == eid := by
  induction l with
  | nil => rfl
  | cons e es ih =>
    by_cases h : e.id = eid
    · rw [findEntitlement, if_pos h, List.find?_cons_of_pos _ (by simp [h])]
    · rw [findEntitlement, if_neg h, List.find?_cons_of_neg _ (by simp [h]), ih]

/-- C9: `GetActiveEntitlement` is the three-step linear join: given the
fetched active subscription, it resolves the first listed product whose
product identifier equals the subscription's product reference, then
the first listed entitlement whose identifier equals that product's
entitlement reference — nothing but linear first-match scans over the
two fetched lists. -/
theorem getActiveEntitlement_three_step_join (sub : StorableSubscription)
    (products : List TenantProduct) (entitlements : List TenantEntitlement) :
    getActiveEntitlement (.ok (some sub)) (.ok products) (.ok entitlements) =
      .ok ((products.find? fun p => p.productId == sub.productId).bind
        fun activeProduct =>
          entitlements.find? fun e => e.id == activeProduct.entitlementId) := by
  unfold getActiveEntitlement
  have h1 : getActiveProduct (.ok (some sub)) (.ok products) =
      .ok (findProduct sub.productId products) := rfl
  rw [h1, findProduct_eq_find]
  rcases hfp : products.find? fun p => p.productId == sub.productId with _ | p <;>
    simp [hfp, findEntitlement_eq_find]

/-- `findProduct` misses exactly when no listed product matches. -/
theorem findProduct_eq_none (pid : String) (l : List TenantProduct)
    (h : ∀ p ∈ l, p.productId ≠ pid) : findProduct pid l = none := by
  induction l with
  | nil => rfl
  | cons p ps ih =>
    rw [findProduct, if_neg (h p (by simp))]
    exact ih fun q hq => h q (by simp [hq])

/-- `findEntitlement` misses exactly when no listed entitlement matches. -/
theorem findEntitlement_eq_none (eid : String) (l : List TenantEntitlement)
    (h : ∀ e ∈ l, e.id ≠ eid) : findEntitlement eid l = none := by
  induction l with
  | nil => rfl
  | cons e es ih =>
    rw [findEntitlement, if_neg (h e (by simp))]
    exact ih fun q hq => h q (by simp [hq])

/-- C10: for the single-result lookups, absence is not an error: a
decoded envelope with no error and no data makes `GetActiveSubscription`
succeed with no value; an absent subscription, a product list with no
matching product, and an entitlement list with no matching entitlement
each make `GetActiveProduct` / `GetActiveEntitlement` succeed with no
value rather than fail. -/
theorem absence_is_not_error (env : SubscriptionEnvelope)
    (sub : StorableSubscription) (prod : TenantProduct)
    (products : List TenantProduct) (entitlements : List TenantEntitlement)
    (productsResult : Except String (List TenantProduct))
    (henv : hasEnvelopeError env.error = false) (hdata : env.data = none)
    (hnoprod : ∀ p ∈ products, p.productId ≠ sub.productId)
    (hmatch : prod.productId = sub.productId)
    (hnoent : ∀ e ∈ entitlements, e.id ≠ prod.entitlementId) :
    getActiveSubscription env = .ok none ∧
    getActiveProduct (.ok none) productsResult = .ok none ∧
    getActiveProduct (.ok (some sub)) (.ok products) = .ok none ∧
    getActiveEntitlement (.ok (some sub)) (.ok (prod :: products))
      (.ok entitlements) = .ok none := by
  refine ⟨?_, rfl, ?_, ?_⟩
  · rw [getActiveSubscription, if_neg (by simp [henv]), hdata]
  · have h1 : getActiveProduct (.ok (some sub)) (.ok products) =
        .ok (findProduct sub.productId products) := rfl
    rw [h1, findProduct_eq_none _ _ hnoprod]
  · unfold getActiveEntitlement
    have h1 : getActiveProduct (.ok (some sub)) (.ok (prod :: products)) =
        .ok (some prod) := by
      have h2 : findProduct sub.productId (prod :: products) = some prod := by
        rw [findProduct, if_pos hmatch]
      exact congrArg Except.ok h2
    rw [h1]
    dsimp only
    rw [findEntitlement_eq_none _ _ hnoent]

/-- Witness for C10 at concrete envelopes and lists. -/
theorem absence_is_not_error_witness :
    getActiveSubscription ⟨none, none⟩ = .ok none ∧
    getActiveProduct (.ok none) (.ok []) = .ok none ∧
    getActiveProduct (.ok (some ⟨"p1"⟩)) (.ok []) = .ok none ∧
    getActiveEntitlement (.ok (some ⟨"p1"⟩)) (.ok [⟨"p1", "e1"⟩])
      (.ok []) = .ok none :=
  absence_is_not_error ⟨none, none⟩ ⟨"p1"⟩ ⟨"p1", "e1"⟩ [] [] (.ok [])
    rfl rfl (by simp) rfl (by simp)

end Crosspay
